import Mathlib

/-!
Shallow embedding of the titan-rtc-client signaling library
(src/lib/Client.ts, src/lib/IncomingSession.ts, src/lib/OutgoingSession.ts,
src/lib/PeerConnection.ts) and proofs about its claims.

Modelling conventions:
* JavaScript Map objects become association lists (List (String x Nat)) whose
  set operation replaces in place and whose delete removes the entry, exactly
  as Map.set / Map.delete do; session and waiter objects are represented by
  Nat tokens so that replacement versus retention is observable.
* Exceptions become an explicit ClientError inductive; each constructor is
  documented with the literal message thrown by the source.
* Side effects on the socket, the RTC engine and the EventTarget dispatch
  mechanism become an explicit Action trace returned next to the new state.
* Asynchronous awaits are modelled by passing the awaited response message as
  an explicit argument of the operation; the correlation bookkeeping done by
  handleSocketMessage on arrival of that response is applied via
  Client.resolvePending at the await point.
* The fresh identifier produced by nanoid() and the waiter / session tokens
  are explicit arguments.
-/

namespace TitanRTC

/-- Wire message (interface Message of Client.ts). Only the fields the
claims exercise are carried; respMessage stands for response.message,
bodyCandidate for body.candidate and bodyOffer for body.offer. -/
structure Message where
  session_id : Option String := none
  transaction_id : Option String := none
  cmd : Option String := none
  result : Option String := none
  uri : Option String := none
  respMessage : Option String := none
  bodyCandidate : Option String := none
  bodyOffer : Option String := none
  deriving DecidableEq, Repr

/-- Errors thrown by the source, one constructor per distinct throw site:
selfAddressed is the family of messages rejecting a uri equal to the local
id, alreadyConnected is the message rejecting a duplicate peer connection,
sessionAlreadyActive the message rejecting a duplicate session request,
socketNotOpen the message rejecting a send on a closed socket,
alreadySettled the message rejecting an operation on a settled session, and
remoteFailed a failed RPC response surfaced to the caller. -/
inductive ClientError where
  | selfAddressed
  | alreadyConnected
  | sessionAlreadyActive
  | socketNotOpen
  | alreadySettled
  | remoteFailed (msg : Option String)
  deriving DecidableEq, Repr

/-- Observable side effects: registering a waiter in pendingResponses,
transmitting a message on the socket, handing a candidate to the RTC engine
(addIceCandidate), and dispatching a named event on an EventTarget. -/
inductive Action where
  | register (sid : String) (w : Nat)
  | transmit (m : Message)
  | engineAddCandidate (uri cand : String)
  | dispatch (name : String)
  deriving DecidableEq, Repr

/-- Association list standing for a JavaScript Map with String keys. -/
abbrev JsMap := List (String × Nat)

/-- Map.get: the value stored under k, if any. -/
def mapGet : JsMap → String → Option Nat
  | [], _ => none
  | (k', v) :: rest, k => if k' = k then some v else mapGet rest k

/-- Map.has. -/
def mapHas (m : JsMap) (k : String) : Bool :=
  (mapGet m k).isSome

/-- Map.set: replaces the value in place when the key is present, appends
the pair otherwise (JavaScript insertion-order semantics). -/
def mapSet : JsMap → String → Nat → JsMap
  | [], k, v => [(k, v)]
  | (k', v') :: rest, k, v =>
      if k' = k then (k, v) :: rest else (k', v') :: mapSet rest k v

/-- Map.delete: removes the entry stored under k. -/
def mapDelete : JsMap → String → JsMap
  | [], _ => []
  | (k', v') :: rest, k =>
      if k' = k then rest else (k', v') :: mapDelete rest k

/-- Well-formedness of a map: its keys are pairwise distinct, which holds
for every JavaScript Map. -/
def keysNodup (m : JsMap) : Prop :=
  (m.map Prod.fst).Nodup

/-- JavaScript truthiness of an optional string field: undefined and the
empty string are falsy. -/
def jsTruthy : Option String → Bool
  | some s => s ≠ ""
  | none => false

/-- State of a Client instance (fields of class Client): the local id, the
socket readyState reduced to open or not, the keys of the connections map,
the pendingIncomingSessions and pendingOutgoingSessions maps with session
tokens as values, the pendingResponses map with waiter tokens as values,
the hasSetRemoteOffer flag and the candidates buffer array. -/
structure ClientState where
  id : String
  socketOpen : Bool
  connections : List String
  pendingIncoming : JsMap
  pendingOutgoing : JsMap
  pendingResponses : JsMap
  hasSetRemoteOffer : Bool
  candidates : List String
  deriving DecidableEq, Repr

namespace Client

/-- Correlation id chosen by Client.send: the session_id of the outgoing
message when truthy, otherwise the fresh nanoid value. -/
def sendSid (msg : Message) (fresh : String) : String :=
  if jsTruthy msg.session_id then msg.session_id.getD fresh else fresh

/-- Client.send (Client.ts lines 173 to 185): throws when the socket is not
open, throws when message.uri is truthy and equals the local id; otherwise
fills session_id with the given value when absent or falsy (the nanoid
fallback), registers the resolver in pendingResponses under that id, and
only then transmits the serialized message. The returned Action trace
records that registration precedes transmission. -/
def send (s : ClientState) (msg : Message) (fresh : String) (w : Nat) :
    Except ClientError (ClientState × List Action) :=
  if s.socketOpen = false then .error .socketNotOpen
  else if jsTruthy msg.uri = true ∧ msg.uri = some s.id then .error .selfAddressed
  else
    .ok ({ s with pendingResponses := mapSet s.pendingResponses (sendSid msg fresh) w },
         [Action.register (sendSid msg fresh) w,
          Action.transmit { msg with session_id := some (sendSid msg fresh) }])

/-- Pending-response branch of Client.handleSocketMessage (lines 207 to
213): when pendingResponses holds the session_id of the inbound message,
the stored resolver is removed from the map and invoked (returned here as
the second component); otherwise the state is unchanged. -/
def resolvePending (s : ClientState) (m : Message) : ClientState × Option Nat :=
  match m.session_id with
  | none => (s, none)
  | some sid =>
      match mapGet s.pendingResponses sid with
      | some w => ({ s with pendingResponses := mapDelete s.pendingResponses sid }, some w)
      | none => (s, none)

/-- Client.onCandidate (lines 261 to 271): when the candidate string is
truthy it is wrapped in an RTCIceCandidate and handed to the engine of the
connection stored under uri; a falsy (empty) candidate is dropped. The
connection lookup itself is not modelled beyond the uri carried in the
action. -/
def onCandidate (cand uri : String) : List Action :=
  if cand ≠ "" then [Action.engineAddCandidate uri cand] else []

/-- Client.handleSyncCandidate (lines 243 to 259) for a message carrying
body.candidate = cand and uri = uri: when cand differs from the sentinel
string completed and is not yet in the candidates array it is pushed;
independently, when hasSetRemoteOffer is set and cand differs from the
sentinel, the candidate is handed to the engine via onCandidate. -/
def handleSyncCandidate (s : ClientState) (cand uri : String) :
    ClientState × List Action :=
  let s1 := if cand ≠ "completed" ∧ cand ∉ s.candidates
            then { s with candidates := s.candidates ++ [cand] } else s
  if s1.hasSetRemoteOffer = true ∧ cand ≠ "completed"
  then (s1, onCandidate cand uri)
  else (s1, [])

/-- Continuation attached to setRemoteDescription in
Client.handlePublishOffer (lines 310 to 317): once the remote description
is applied, hasSetRemoteOffer is set and every entry of the candidates
array is fed to onCandidate in index order. The candidates array is left
as it is: the source contains no statement clearing it. -/
def drainCandidates (s : ClientState) (uri : String) : ClientState × List Action :=
  ({ s with hasSetRemoteOffer := true },
   (s.candidates.map (fun c => onCandidate c uri)).flatten)

/-- Client.createPeerConnection (lines 151 to 167): throws selfAddressed
when uri equals the local id, alreadyConnected when the connections map
already has uri; otherwise constructs the connection, wires a close
listener that deletes the registry entry, and stores it under uri. -/
def createPeerConnection (s : ClientState) (uri : String) :
    Except ClientError ClientState :=
  if s.id = uri then .error .selfAddressed
  else if uri ∈ s.connections then .error .alreadyConnected
  else .ok { s with connections := s.connections ++ [uri] }

/-- Close listener installed by createPeerConnection (lines 161 to 163):
deletes the registry entry for uri when the connection closes. -/
def removeConnection (s : ClientState) (uri : String) : ClientState :=
  { s with connections := s.connections.erase uri }

/-- Session-creation and connection part of Client.handlePublishOffer
(lines 285 to 317): unconditionally constructs a fresh IncomingSession
(token tok) and stores it under message.uri, replacing any previous entry,
then dispatches the session event; when no connection exists for uri one is
created via createPeerConnection and the incoming event is dispatched (the
subsequent setRemoteDescription continuation is drainCandidates); when a
connection exists it is reused and nothing further happens. The Bool
records whether a connection was created. -/
def handlePublishOffer (s : ClientState) (uri : String) (tok : Nat) :
    Except ClientError (ClientState × List Action × Bool) :=
  let s1 := { s with pendingIncoming := mapSet s.pendingIncoming uri tok }
  if uri ∈ s1.connections then
    .ok (s1, [Action.dispatch "session"], false)
  else
    match createPeerConnection s1 uri with
    | .error e => .error e
    | .ok s2 => .ok (s2, [Action.dispatch "session", Action.dispatch "incoming"], true)

/-- Client.handleSessionStart (lines 342 to 353): unconditionally
constructs a fresh IncomingSession (token tok), stores it under
message.uri replacing any previous entry, and dispatches the session
event. -/
def handleSessionStart (s : ClientState) (uri : String) (tok : Nat) :
    ClientState × List Action :=
  ({ s with pendingIncoming := mapSet s.pendingIncoming uri tok },
   [Action.dispatch "session"])

/-- Client.createSession (lines 83 to 109): rejects a uri equal to the
local id, then an already established connection, then an already active
session (either direction); otherwise sends a session-start request and
awaits the response (argument response, resolved through resolvePending);
a failed result is thrown, otherwise the new OutgoingSession (token
sessTok) is stored under uri. -/
def createSession (s : ClientState) (uri fresh : String) (w sessTok : Nat)
    (response : Message) : Except ClientError (ClientState × List Action) :=
  if s.id = uri then .error .selfAddressed
  else if uri ∈ s.connections then .error .alreadyConnected
  else if mapHas s.pendingOutgoing uri = true ∨ mapHas s.pendingIncoming uri = true then
    .error .sessionAlreadyActive
  else
    match send s { cmd := some "session-start", uri := some uri } fresh w with
    | .error e => .error e
    | .ok (s1, acts) =>
        let s2 := (resolvePending s1 response).1
        if response.result = some "failed" then .error (.remoteFailed (some "failed"))
        else .ok ({ s2 with pendingOutgoing := mapSet s2.pendingOutgoing uri sessTok }, acts)

/-- Client.handleSocketClose (lines 409 to 420): removes the three socket
listeners and dispatches a close event carrying code and reason. The
pendingResponses map is not touched: no pending waiter is resolved. -/
def handleSocketClose (s : ClientState) : ClientState × List Action :=
  (s, [Action.dispatch "close"])

end Client

/-- State of a session object (shared fields of IncomingSession and
OutgoingSession): the settled flag and the ordered trace of event names
dispatched on the session EventTarget. -/
structure SessionState where
  settled : Bool
  events : List String
  deriving DecidableEq, Repr

/-- Freshly constructed session: not settled, nothing dispatched. -/
def SessionState.init : SessionState :=
  { settled := false, events := [] }

/-- Private settle method, identical in IncomingSession (lines 72 to 80)
and OutgoingSession (lines 62 to 70): a no-op when already settled;
otherwise sets the flag, dispatches the terminal event ty and then the
settled event, in that order. -/
def settle (st : SessionState) (ty : String) : SessionState :=
  if st.settled = true then st
  else { settled := true, events := st.events ++ [ty, "settled"] }

/-- Result of a session operation: the session state, the client state,
the socket-side action trace and the thrown error, if any. -/
structure OpResult where
  sess : SessionState
  client : ClientState
  actions : List Action
  error : Option ClientError
  deriving DecidableEq, Repr

namespace IncomingSession

/-- IncomingSession.accept (lines 18 to 35): throws when already settled;
sends a session-accept request and awaits the response; a failed result
settles the session with the error event and rethrows; otherwise the
session is NOT settled and the result of createPeerConnection(origin) is
returned (which itself throws when a connection already exists). -/
def accept (st : SessionState) (c : ClientState) (origin fresh : String)
    (w : Nat) (response : Message) : OpResult :=
  if st.settled = true then ⟨st, c, [], some .alreadySettled⟩
  else
    match Client.send c { cmd := some "session-accept", uri := some origin } fresh w with
    | .error e => ⟨st, c, [], some e⟩
    | .ok (c1, acts) =>
        let c2 := (Client.resolvePending c1 response).1
        if response.result = some "failed" then
          ⟨settle st "error", c2, acts, some (.remoteFailed response.respMessage)⟩
        else
          match Client.createPeerConnection c2 origin with
          | .ok c3 => ⟨st, c3, acts, none⟩
          | .error e => ⟨st, c2, acts, some e⟩

/-- IncomingSession.reject (lines 37 to 62): throws when already settled;
sends a session-reject request (carrying the reason when truthy) and
awaits the response; a failed result settles the session with the error
event and rethrows; otherwise settles rejected. -/
def reject (st : SessionState) (c : ClientState) (origin fresh : String)
    (w : Nat) (reason : Option String) (response : Message) : OpResult :=
  if st.settled = true then ⟨st, c, [], some .alreadySettled⟩
  else
    let req : Message :=
      { cmd := some "session-reject", uri := some origin,
        respMessage := if jsTruthy reason then reason else none }
    match Client.send c req fresh w with
    | .error e => ⟨st, c, [], some e⟩
    | .ok (c1, acts) =>
        let c2 := (Client.resolvePending c1 response).1
        if response.result = some "failed" then
          ⟨settle st "error", c2, acts, some (.remoteFailed response.respMessage)⟩
        else
          ⟨settle st "rejected", c2, acts, none⟩

/-- IncomingSession.handleCancel (lines 64 to 66): settles canceled; a
silent no-op when already settled. -/
def handleCancel (st : SessionState) : SessionState :=
  settle st "canceled"

/-- IncomingSession.handleTimeout (lines 68 to 70): settles timed-out; a
silent no-op when already settled. -/
def handleTimeout (st : SessionState) : SessionState :=
  settle st "timed-out"

end IncomingSession

namespace OutgoingSession

/-- OutgoingSession.cancel (lines 18 to 43): throws when already settled;
sends a session-cancel request (carrying the reason when truthy) and
awaits the response; a failed result settles the session with the error
event and rethrows; otherwise settles canceled. -/
def cancel (st : SessionState) (c : ClientState) (target fresh : String)
    (w : Nat) (reason : Option String) (response : Message) : OpResult :=
  if st.settled = true then ⟨st, c, [], some .alreadySettled⟩
  else
    let req : Message :=
      { cmd := some "session-cancel", uri := some target,
        respMessage := if jsTruthy reason then reason else none }
    match Client.send c req fresh w with
    | .error e => ⟨st, c, [], some e⟩
    | .ok (c1, acts) =>
        let c2 := (Client.resolvePending c1 response).1
        if response.result = some "failed" then
          ⟨settle st "error", c2, acts, some (.remoteFailed response.respMessage)⟩
        else
          ⟨settle st "canceled", c2, acts, none⟩

/-- OutgoingSession.handleAccept (lines 45 to 52): throws when already
settled (NOT a silent no-op); otherwise creates the peer connection for
the target and settles accepted with it as payload. -/
def handleAccept (st : SessionState) (c : ClientState) (target : String) : OpResult :=
  if st.settled = true then ⟨st, c, [], some .alreadySettled⟩
  else
    match Client.createPeerConnection c target with
    | .ok c1 => ⟨settle st "accepted", c1, [], none⟩
    | .error e => ⟨st, c, [], some e⟩

/-- OutgoingSession.handleReject (lines 54 to 56): settles rejected; a
silent no-op when already settled. -/
def handleReject (st : SessionState) : SessionState :=
  settle st "rejected"

/-- OutgoingSession.handleTimeout (lines 58 to 60): settles timed-out; a
silent no-op when already settled. -/
def handleTimeout (st : SessionState) : SessionState :=
  settle st "timed-out"

end OutgoingSession

/-- The five terminal event names a session can settle with. -/
def terminalEvents : List String :=
  ["accepted", "rejected", "canceled", "timed-out", "error"]

/-- Every call of the private settle method made anywhere in the two
session classes, abstracted as an operation on the session state: the five
settle sites (accepted, rejected, canceled, timed-out, error) plus skip
for reactions that do not reach settle. Every event dispatched on a
session EventTarget in the source goes through settle, so a session event
trace is generated by a list of these operations. -/
inductive SettleOp where
  | accepted
  | rejected
  | canceled
  | timedOut
  | errored
  | skip
  deriving DecidableEq, Repr

/-- Effect of one settle site on the session state. -/
def applyOp (st : SessionState) : SettleOp → SessionState
  | .accepted => settle st "accepted"
  | .rejected => settle st "rejected"
  | .canceled => settle st "canceled"
  | .timedOut => settle st "timed-out"
  | .errored => settle st "error"
  | .skip => st

/-- Effect of a sequence of settle sites. -/
def applyOps (st : SessionState) (ops : List SettleOp) : SessionState :=
  ops.foldl applyOp st

/-! Helper lemmas about the map model. -/

theorem mapGet_mapSet_self (m : JsMap) (k : String) (v : Nat) :
    mapGet (mapSet m k v) k = some v := by
  induction m with
  | nil => simp [mapSet, mapGet]
  | cons p rest ih =>
      obtain ⟨k', v'⟩ := p
      by_cases h : k' = k
      · simp [mapSet, mapGet, h]
      · simp [mapSet, mapGet, h, ih]

theorem mapGet_mapSet_other (m : JsMap) (k k' : String) (v : Nat) (h : k' ≠ k) :
    mapGet (mapSet m k v) k' = mapGet m k' := by
  induction m with
  | nil => simp [mapSet, mapGet, Ne.symm h]
  | cons p rest ih =>
      obtain ⟨k₀, v₀⟩ := p
      by_cases hk : k₀ = k
      · subst hk
        simp [mapSet, mapGet, Ne.symm h]
      · simp [mapSet, mapGet, hk, ih]

theorem mapGet_mapDelete_other (m : JsMap) (k k' : String) (h : k' ≠ k) :
    mapGet (mapDelete m k) k' = mapGet m k' := by
  induction m with
  | nil => simp [mapDelete]
  | cons p rest ih =>
      obtain ⟨k₀, v₀⟩ := p
      by_cases hk : k₀ = k
      · subst hk
        simp [mapDelete, mapGet, Ne.symm h]
      · simp [mapDelete, mapGet, hk, ih]

theorem mapGet_eq_none_of_not_mem (m : JsMap) (k : String)
    (h : k ∉ m.map Prod.fst) : mapGet m k = none := by
  induction m with
  | nil => rfl
  | cons p rest ih =>
      obtain ⟨k₀, v₀⟩ := p
      simp only [List.map_cons, List.mem_cons] at h
      push_neg at h
      simp [mapGet, Ne.symm h.1, ih h.2]

theorem mapGet_mapDelete_self (m : JsMap) (k : String) (h : keysNodup m) :
    mapGet (mapDelete m k) k = none := by
  induction m with
  | nil => rfl
  | cons p rest ih =>
      obtain ⟨k₀, v₀⟩ := p
      simp only [keysNodup, List.map_cons, List.nodup_cons] at h
      by_cases hk : k₀ = k
      · subst hk
        simpa [mapDelete] using mapGet_eq_none_of_not_mem rest k₀ h.1
      · simp [mapDelete, mapGet, hk, ih h.2]

theorem mem_keys_mapSet (m : JsMap) (k : String) (v : Nat) (a : String) :
    a ∈ (mapSet m k v).map Prod.fst ↔ a ∈ m.map Prod.fst ∨ a = k := by
  induction m with
  | nil => simp [mapSet]
  | cons p rest ih =>
      obtain ⟨k₀, v₀⟩ := p
      by_cases hk : k₀ = k
      · subst hk
        simp [mapSet]
        tauto
      · simp [mapSet, hk, ih]
        tauto

theorem keysNodup_mapSet (m : JsMap) (k : String) (v : Nat) (h : keysNodup m) :
    keysNodup (mapSet m k v) := by
  induction m with
  | nil => simp [mapSet, keysNodup]
  | cons p rest ih =>
      obtain ⟨k₀, v₀⟩ := p
      simp only [keysNodup, List.map_cons, List.nodup_cons] at h
      by_cases hk : k₀ = k
      · subst hk
        rw [show mapSet ((k₀, v₀) :: rest) k₀ v = (k₀, v) :: rest by simp [mapSet]]
        exact List.nodup_cons.mpr ⟨h.1, h.2⟩
      · have h1 : k₀ ∉ (mapSet rest k v).map Prod.fst := by
          rw [mem_keys_mapSet]
          push_neg
          exact ⟨h.1, hk⟩
        show keysNodup (if k₀ = k then (k, v) :: rest else (k₀, v₀) :: mapSet rest k v)
        rw [if_neg hk]
        exact List.nodup_cons.mpr ⟨h1, ih h.2⟩

theorem keys_mapDelete_sublist (m : JsMap) (k : String) :
    ((mapDelete m k).map Prod.fst).Sublist (m.map Prod.fst) := by
  induction m with
  | nil => simp [mapDelete]
  | cons p rest ih =>
      obtain ⟨k₀, v₀⟩ := p
      by_cases hk : k₀ = k
      · simp only [mapDelete, if_pos hk, List.map_cons]
        exact List.sublist_cons_self k₀ (rest.map Prod.fst)
      · simp only [mapDelete, if_neg hk, List.map_cons]
        exact ih.cons₂ k₀

theorem keysNodup_mapDelete (m : JsMap) (k : String) (h : keysNodup m) :
    keysNodup (mapDelete m k) := by
  exact List.Nodup.sublist (keys_mapDelete_sublist m k) h

/-! Helper lemmas about send, resolvePending and settle. -/

theorem send_ok (s : ClientState) (msg : Message) (fresh : String) (w : Nat)
    (hopen : s.socketOpen = true)
    (hself : ¬(jsTruthy msg.uri = true ∧ msg.uri = some s.id)) :
    Client.send s msg fresh w =
      .ok ({ s with pendingResponses := mapSet s.pendingResponses (Client.sendSid msg fresh) w },
           [Action.register (Client.sendSid msg fresh) w,
            Action.transmit { msg with session_id := some (Client.sendSid msg fresh) }]) := by
  simp [Client.send, hopen, hself]

theorem resolvePending_fst_shape (s : ClientState) (m : Message) :
    ∃ pr, (Client.resolvePending s m).1 = { s with pendingResponses := pr } := by
  cases hm : m.session_id with
  | none =>
      refine ⟨s.pendingResponses, ?_⟩
      simp only [Client.resolvePending, hm]
  | some sid =>
      cases hg : mapGet s.pendingResponses sid with
      | none =>
          refine ⟨s.pendingResponses, ?_⟩
          simp only [Client.resolvePending, hm, hg]
      | some w =>
          refine ⟨mapDelete s.pendingResponses sid, ?_⟩
          simp only [Client.resolvePending, hm, hg]

theorem settle_of_settled (st : SessionState) (ty : String) (h : st.settled = true) :
    settle st ty = st := by
  simp [settle, h]

/-- Invariant maintained by the settle sites: either the session is not yet
settled and no event was dispatched, or it is settled and the trace is
exactly one terminal event followed by the settled event. -/
def sessionInv (st : SessionState) : Prop :=
  (st.settled = false ∧ st.events = []) ∨
  (st.settled = true ∧ ∃ t, t ∈ terminalEvents ∧ st.events = [t, "settled"])

theorem settle_keeps_inv (st : SessionState) (ty : String)
    (hty : ty ∈ terminalEvents) (h : sessionInv st) : sessionInv (settle st ty) := by
  rcases h with ⟨h1, h2⟩ | ⟨h1, h2⟩
  · right
    refine ⟨by simp [settle, h1], ty, hty, ?_⟩
    simp [settle, h1, h2]
  · rw [settle_of_settled st ty h1]
    exact Or.inr ⟨h1, h2⟩

theorem applyOp_keeps_inv (st : SessionState) (op : SettleOp) (h : sessionInv st) :
    sessionInv (applyOp st op) := by
  cases op
  case skip => exact h
  all_goals exact settle_keeps_inv st _ (by simp [terminalEvents]) h

theorem applyOps_keeps_inv (st : SessionState) (ops : List SettleOp) (h : sessionInv st) :
    sessionInv (applyOps st ops) := by
  induction ops generalizing st with
  | nil => exact h
  | cons op rest ih =>
      show sessionInv (applyOps (applyOp st op) rest)
      exact ih (applyOp st op) (applyOp_keeps_inv st op h)

theorem applyOps_of_settled (st : SessionState) (ops : List SettleOp)
    (h : st.settled = true) : applyOps st ops = st := by
  induction ops with
  | nil => rfl
  | cons op rest ih =>
      have hop : applyOp st op = st := by
        cases op <;> simp [applyOp, settle, h]
      show applyOps (applyOp st op) rest = st
      rw [hop, ih]

/-! Claim C6. -/

/-- C6 (code_bug evidence): on a definitive socket closure
Client.handleSocketClose leaves pendingResponses exactly as it was and only
dispatches the close event, so every still-pending correlated request stays
pending forever; no ChannelNotOpen-flavored resolution happens, contrary to
the claim. -/
theorem socket_close_leaves_pending (s : ClientState) :
    (Client.handleSocketClose s).1.pendingResponses = s.pendingResponses ∧
    (Client.handleSocketClose s).2 = [Action.dispatch "close"] :=
  ⟨rfl, rfl⟩

/-! Claim C5. -/

/-- C5: at most one PeerConnection per peer ID: given a registry with
distinct keys, a second create for a registered uri fails with
alreadyConnected; a successful create keeps the keys distinct and registers
uri; the close hook removes the entry (idempotently, uri is absent
afterwards); and an inbound publisher offer for a uri with an existing
connection reuses it, leaving the registry unchanged. -/
theorem peer_connection_uniqueness (s : ClientState) (uri : String) (tok : Nat)
    (hself : s.id ≠ uri) (hn : s.connections.Nodup) :
    (uri ∈ s.connections → Client.createPeerConnection s uri = .error .alreadyConnected) ∧
    (∀ s', Client.createPeerConnection s uri = .ok s' →
        s'.connections.Nodup ∧ uri ∈ s'.connections) ∧
    (Client.removeConnection s uri).connections.Nodup ∧
    uri ∉ (Client.removeConnection s uri).connections ∧
    (uri ∈ s.connections →
      Client.handlePublishOffer s uri tok =
        .ok ({ s with pendingIncoming := mapSet s.pendingIncoming uri tok },
             [Action.dispatch "session"], false)) := by
  refine ⟨?_, ?_, ?_, ?_, ?_⟩
  · intro hmem
    simp [Client.createPeerConnection, hself, hmem]
  · intro s' hok
    unfold Client.createPeerConnection at hok
    rw [if_neg hself] at hok
    by_cases hmem : uri ∈ s.connections
    · rw [if_pos hmem] at hok
      exact absurd hok (by simp)
    · rw [if_neg hmem] at hok
      have hs' : s' = { s with connections := s.connections ++ [uri] } :=
        (Except.ok.inj hok).symm
      subst hs'
      constructor
      · simp [List.nodup_append, hn, hmem]
      · simp
  · exact List.Nodup.erase uri hn
  · intro hmem
    exact absurd ((List.Nodup.mem_erase_iff hn).mp hmem).1 (by simp)
  · intro hmem
    simp [Client.handlePublishOffer, hmem]

/-- Concrete client used by the C5 witness: one registered connection B. -/
def clientC5 : ClientState :=
  { id := "A", socketOpen := true, connections := ["B"], pendingIncoming := [],
    pendingOutgoing := [], pendingResponses := [], hasSetRemoteOffer := false,
    candidates := [] }

/-- C5 witness: the theorem evaluated on a client already holding a
connection for B. -/
theorem peer_connection_uniqueness_witness :
    Client.createPeerConnection clientC5 "B" = .error .alreadyConnected ∧
    "B" ∉ (Client.removeConnection clientC5 "B").connections :=
  ⟨(peer_connection_uniqueness clientC5 "B" 0 (by decide) (by decide)).1 (by decide),
   (peer_connection_uniqueness clientC5 "B" 0 (by decide) (by decide)).2.2.2.1⟩

/-! Claim C7. -/

/-- C7: self-addressing rejection: createSession on the own id,
createPeerConnection on the own id, and send of a message whose uri equals
the own id all fail synchronously with the selfAddressed error, and none of
them returns an Action trace, so nothing is transmitted on the channel.
The send case assumes an open socket (the closed-socket check precedes the
self check) and a nonempty local id (the source tests truthiness of uri
before comparing). -/
theorem self_addressing_rejected (s : ClientState) (fresh : String) (w sessTok : Nat)
    (response msg : Message)
    (hopen : s.socketOpen = true) (hid : s.id ≠ "") (huri : msg.uri = some s.id) :
    Client.createSession s s.id fresh w sessTok response = .error .selfAddressed ∧
    Client.createPeerConnection s s.id = .error .selfAddressed ∧
    Client.send s msg fresh w = .error .selfAddressed ∧
    (∀ s1 acts, Client.send s msg fresh w ≠ .ok (s1, acts)) := by
  have hsend : Client.send s msg fresh w = .error .selfAddressed := by
    have ht : jsTruthy (some s.id) = true := by
      simp [jsTruthy, hid]
    simp [Client.send, hopen, ht, huri]
  refine ⟨?_, ?_, hsend, ?_⟩
  · simp [Client.createSession]
  · simp [Client.createPeerConnection]
  · intro s1 acts
    simp [hsend]

/-- C7 witness: the theorem evaluated on a concrete client with id A and a
message addressed to A. -/
theorem self_addressing_rejected_witness :
    Client.createSession
      { id := "A", socketOpen := true, connections := [], pendingIncoming := [],
        pendingOutgoing := [], pendingResponses := [], hasSetRemoteOffer := false,
        candidates := [] } "A" "f" 0 0 { result := some "success" } =
      .error .selfAddressed ∧
    Client.createPeerConnection
      { id := "A", socketOpen := true, connections := [], pendingIncoming := [],
        pendingOutgoing := [], pendingResponses := [], hasSetRemoteOffer := false,
        candidates := [] } "A" = .error .selfAddressed :=
  ⟨(self_addressing_rejected _ "f" 0 0 { result := some "success" } { uri := some "A" }
      (by decide) (by decide) (by decide)).1,
   (self_addressing_rejected _ "f" 0 0 { result := some "success" } { uri := some "A" }
      (by decide) (by decide) (by decide)).2.1⟩

/-! Claim C2. -/

/-- C2 counterexample: on an already settled outgoing session, handleAccept
is not a silent no-op: it raises the alreadySettled error. -/
theorem handle_accept_after_settlement_throws :
    (OutgoingSession.handleAccept { settled := true, events := ["accepted", "settled"] }
      { id := "A", socketOpen := true, connections := [], pendingIncoming := [],
        pendingOutgoing := [], pendingResponses := [], hasSetRemoteOffer := false,
        candidates := [] } "B").error = some ClientError.alreadySettled := by
  decide

/-- C2 (amended): once a session is settled, every caller-initiated
operation (accept, reject, cancel) fails with alreadySettled and leaves
session state, client state and the wire untouched; the externally
delivered transitions handleCancel, handleTimeout and handleReject are
silent no-ops; but OutgoingSession.handleAccept is the exception: it also
fails with alreadySettled instead of being silent. -/
theorem settled_session_guard (st : SessionState) (c : ClientState)
    (origin fresh : String) (w : Nat) (reason : Option String) (r : Message)
    (h : st.settled = true) :
    IncomingSession.accept st c origin fresh w r = ⟨st, c, [], some .alreadySettled⟩ ∧
    IncomingSession.reject st c origin fresh w reason r = ⟨st, c, [], some .alreadySettled⟩ ∧
    OutgoingSession.cancel st c origin fresh w reason r = ⟨st, c, [], some .alreadySettled⟩ ∧
    IncomingSession.handleCancel st = st ∧
    IncomingSession.handleTimeout st = st ∧
    OutgoingSession.handleReject st = st ∧
    OutgoingSession.handleTimeout st = st ∧
    OutgoingSession.handleAccept st c origin = ⟨st, c, [], some .alreadySettled⟩ := by
  refine ⟨?_, ?_, ?_, ?_, ?_, ?_, ?_, ?_⟩ <;>
    simp [IncomingSession.accept, IncomingSession.reject, OutgoingSession.cancel,
          IncomingSession.handleCancel, IncomingSession.handleTimeout,
          OutgoingSession.handleReject, OutgoingSession.handleTimeout,
          OutgoingSession.handleAccept, settle, h]

/-- C2 witness: the amended theorem evaluated on a concrete settled
session. -/
theorem settled_session_guard_witness :
    IncomingSession.accept { settled := true, events := ["rejected", "settled"] }
      { id := "A", socketOpen := true, connections := [], pendingIncoming := [],
        pendingOutgoing := [], pendingResponses := [], hasSetRemoteOffer := false,
        candidates := [] } "B" "f" 0 { result := some "success" } =
      ⟨{ settled := true, events := ["rejected", "settled"] },
       { id := "A", socketOpen := true, connections := [], pendingIncoming := [],
         pendingOutgoing := [], pendingResponses := [], hasSetRemoteOffer := false,
         candidates := [] }, [], some .alreadySettled⟩ ∧
    IncomingSession.handleCancel { settled := true, events := ["rejected", "settled"] } =
      { settled := true, events := ["rejected", "settled"] } :=
  ⟨(settled_session_guard _ _ "B" "f" 0 none { result := some "success" } (by decide)).1,
   (settled_session_guard _
      { id := "A", socketOpen := true, connections := [], pendingIncoming := [],
        pendingOutgoing := [], pendingResponses := [], hasSetRemoteOffer := false,
        candidates := [] } "B" "f" 0 none { result := some "success" } (by decide)).2.2.2.1⟩

/-! Claim C9. -/

/-- C9: every event-dispatching path of both session classes goes through
the private settle method, abstracted by the SettleOp sites (the four
external handlers are literally settle sites, witnessed by the last four
conjuncts); starting from a fresh session, any sequence of settle attempts
leaves the trace either empty (not yet settled) or exactly one terminal
event followed by the settled event, in that order; and once settled, any
further attempts change nothing, so the pair is dispatched exactly once
over the session lifetime. -/
theorem session_settles_exactly_once (ops more : List SettleOp) :
    sessionInv (applyOps SessionState.init ops) ∧
    ((applyOps SessionState.init ops).settled = true →
      applyOps (applyOps SessionState.init ops) more = applyOps SessionState.init ops) ∧
    (∀ st, IncomingSession.handleCancel st = applyOp st SettleOp.canceled) ∧
    (∀ st, IncomingSession.handleTimeout st = applyOp st SettleOp.timedOut) ∧
    (∀ st, OutgoingSession.handleReject st = applyOp st SettleOp.rejected) ∧
    (∀ st, OutgoingSession.handleTimeout st = applyOp st SettleOp.timedOut) := by
  refine ⟨?_, ?_, fun st => rfl, fun st => rfl, fun st => rfl, fun st => rfl⟩
  · exact applyOps_keeps_inv _ ops (Or.inl ⟨rfl, rfl⟩)
  · intro h
    exact applyOps_of_settled _ more h

/-- C9 witness: a session settled by an accept attempt is immune to a later
reject attempt. -/
theorem session_settles_exactly_once_witness :
    applyOps (applyOps SessionState.init [SettleOp.accepted]) [SettleOp.rejected] =
      applyOps SessionState.init [SettleOp.accepted] :=
  (session_settles_exactly_once [SettleOp.accepted] [SettleOp.rejected]).2.1 (by decide)

/-! Claim C3. -/

/-- C3: correlation exactness: with distinct keys in pendingResponses and a
waiter w registered under sid, an inbound message carrying sid resolves
exactly that waiter; the entry is deleted, so sid is gone, every other
entry is untouched, and a second delivery of the same message resolves
nothing; and every successful send produces its register action strictly
before its transmit action. -/
theorem correlation_exactness (s : ClientState) (msg : Message) (sid : String) (w : Nat)
    (hn : keysNodup s.pendingResponses)
    (hreg : mapGet s.pendingResponses sid = some w)
    (hm : msg.session_id = some sid) :
    (Client.resolvePending s msg).2 = some w ∧
    (Client.resolvePending s msg).1.pendingResponses = mapDelete s.pendingResponses sid ∧
    mapGet (Client.resolvePending s msg).1.pendingResponses sid = none ∧
    (∀ k, k ≠ sid → mapGet (Client.resolvePending s msg).1.pendingResponses k
        = mapGet s.pendingResponses k) ∧
    (Client.resolvePending (Client.resolvePending s msg).1 msg).2 = none ∧
    (∀ (msg2 : Message) (fresh : String) (w2 : Nat) (s1 : ClientState) (acts : List Action),
        Client.send s msg2 fresh w2 = .ok (s1, acts) →
        acts = [Action.register (Client.sendSid msg2 fresh) w2,
                Action.transmit { msg2 with session_id := some (Client.sendSid msg2 fresh) }]) := by
  have hres : Client.resolvePending s msg =
      ({ s with pendingResponses := mapDelete s.pendingResponses sid }, some w) := by
    simp only [Client.resolvePending, hm, hreg]
  have hdel : mapGet (mapDelete s.pendingResponses sid) sid = none :=
    mapGet_mapDelete_self s.pendingResponses sid hn
  refine ⟨by rw [hres], by rw [hres], ?_, ?_, ?_, ?_⟩
  · rw [hres]
    exact hdel
  · intro k hk
    rw [hres]
    exact mapGet_mapDelete_other s.pendingResponses sid k hk
  · rw [hres]
    simp only [Client.resolvePending, hm, hdel]
  · intro msg2 fresh w2 s1 acts hok
    unfold Client.send at hok
    by_cases h1 : s.socketOpen = false
    · rw [if_pos h1] at hok
      exact absurd hok (by simp)
    · rw [if_neg h1] at hok
      by_cases h2 : jsTruthy msg2.uri = true ∧ msg2.uri = some s.id
      · rw [if_pos h2] at hok
        exact absurd hok (by simp)
      · rw [if_neg h2] at hok
        exact ((Prod.mk.injEq _ _ _ _).mp (Except.ok.inj hok)).2.symm

/-- Concrete client used by the C3 witness: two outstanding requests. -/
def clientC3 : ClientState :=
  { id := "A", socketOpen := true, connections := [], pendingIncoming := [],
    pendingOutgoing := [], pendingResponses := [("x", 7), ("y", 8)],
    hasSetRemoteOffer := false, candidates := [] }

/-- C3 witness: with waiters 7 under x and 8 under y outstanding, a
response carrying x resolves waiter 7 only, leaves y registered, and a
replay of the response resolves nothing. -/
theorem correlation_exactness_witness :
    (Client.resolvePending clientC3 { session_id := some "x" }).2 = some 7 ∧
    mapGet (Client.resolvePending clientC3 { session_id := some "x" }).1.pendingResponses "x"
      = none ∧
    mapGet (Client.resolvePending clientC3 { session_id := some "x" }).1.pendingResponses "y"
      = mapGet clientC3.pendingResponses "y" ∧
    (Client.resolvePending (Client.resolvePending clientC3 { session_id := some "x" }).1
        { session_id := some "x" }).2 = none :=
  ⟨(correlation_exactness clientC3 { session_id := some "x" } "x" 7
      (by unfold keysNodup; decide) (by decide) (by decide)).1,
   (correlation_exactness clientC3 { session_id := some "x" } "x" 7
      (by unfold keysNodup; decide) (by decide) (by decide)).2.2.1,
   (correlation_exactness clientC3 { session_id := some "x" } "x" 7
      (by unfold keysNodup; decide) (by decide) (by decide)).2.2.2.1 "y" (by decide),
   (correlation_exactness clientC3 { session_id := some "x" } "x" 7
      (by unfold keysNodup; decide) (by decide) (by decide)).2.2.2.2.1⟩

/-! Claim C8. -/

/-- C8 counterexample: sending a message whose session_id x is already
registered does not fail with any duplicate-correlation error: the send
succeeds and the map now holds the new waiter 1 under x, the previously
registered waiter 0 having been silently dropped. -/
theorem duplicate_registration_accepted :
    Client.send
      { id := "A", socketOpen := true, connections := [], pendingIncoming := [],
        pendingOutgoing := [], pendingResponses := [("x", 0)], hasSetRemoteOffer := false,
        candidates := [] }
      { session_id := some "x" } "fresh" 1 =
      .ok ({ id := "A", socketOpen := true, connections := [], pendingIncoming := [],
             pendingOutgoing := [], pendingResponses := [("x", 1)], hasSetRemoteOffer := false,
             candidates := [] },
           [Action.register "x" 1, Action.transmit { session_id := some "x" }]) := by
  rfl

/-- C8 (amended): registering a waiter under a correlation ID that is
already registered does not fail: Map.set silently replaces the previous
waiter, which is dropped and can never be resolved. -/
theorem duplicate_registration_replaces (s : ClientState) (msg : Message)
    (fresh sid : String) (w w0 : Nat)
    (hopen : s.socketOpen = true)
    (hself : ¬(jsTruthy msg.uri = true ∧ msg.uri = some s.id))
    (hsid : msg.session_id = some sid) (hne : sid ≠ "")
    (_hold : mapGet s.pendingResponses sid = some w0) :
    Client.send s msg fresh w =
      .ok ({ s with pendingResponses := mapSet s.pendingResponses sid w },
           [Action.register sid w,
            Action.transmit { msg with session_id := some sid }]) ∧
    mapGet (mapSet s.pendingResponses sid w) sid = some w := by
  have hsid' : Client.sendSid msg fresh = sid := by
    simp [Client.sendSid, hsid, jsTruthy, hne]
  constructor
  · rw [send_ok s msg fresh w hopen hself, hsid']
  · exact mapGet_mapSet_self _ _ _

/-- C8 witness: the amended theorem evaluated on a client with waiter 0
registered under x; the replacement waiter 1 ends up under x. -/
theorem duplicate_registration_replaces_witness :
    Client.send
      { id := "A", socketOpen := true, connections := [], pendingIncoming := [],
        pendingOutgoing := [], pendingResponses := [("x", 0)], hasSetRemoteOffer := false,
        candidates := [] }
      { session_id := some "x", cmd := some "ping" } "f" 1 =
      .ok ({ id := "A", socketOpen := true, connections := [], pendingIncoming := [],
             pendingOutgoing := [], pendingResponses := mapSet [("x", 0)] "x" 1,
             hasSetRemoteOffer := false, candidates := [] },
           [Action.register "x" 1,
            Action.transmit { session_id := some "x", cmd := some "ping" }]) ∧
    mapGet (mapSet [("x", 0)] "x" 1) "x" = some 1 :=
  duplicate_registration_replaces
    { id := "A", socketOpen := true, connections := [], pendingIncoming := [],
      pendingOutgoing := [], pendingResponses := [("x", 0)], hasSetRemoteOffer := false,
      candidates := [] }
    { session_id := some "x", cmd := some "ping" } "f" "x" 1 0
    (by decide) (by decide) (by decide) (by decide) (by decide)

/-! Claim C1. -/

theorem handleSyncCandidate_fst (s : ClientState) (cand uri : String) :
    (Client.handleSyncCandidate s cand uri).1 =
      if cand ≠ "completed" ∧ cand ∉ s.candidates
      then { s with candidates := s.candidates ++ [cand] } else s := by
  simp only [Client.handleSyncCandidate]
  split <;> (split <;> rfl)

theorem flatten_onCandidate (l : List String) (uri : String) (h : ∀ c ∈ l, c ≠ "") :
    (l.map (fun c => Client.onCandidate c uri)).flatten =
      l.map (fun c => Action.engineAddCandidate uri c) := by
  induction l with
  | nil => rfl
  | cons c rest ih =>
      have hc : c ≠ "" := h c (List.mem_cons_self c rest)
      have hr : ∀ x ∈ rest, x ≠ "" := fun x hx => h x (List.mem_cons_of_mem c hx)
      have hoc : Client.onCandidate c uri = [Action.engineAddCandidate uri c] := by
        simp [Client.onCandidate, hc]
      rw [List.map_cons, List.flatten_cons, ih hr, hoc, List.map_cons, List.singleton_append]

/-- C1 counterexample: a candidate buffered before the remote description is
applied is still in the buffer after the drain: the buffer is not cleared. -/
theorem drain_does_not_clear_buffer :
    (Client.drainCandidates
      ((Client.handleSyncCandidate
        { id := "A", socketOpen := true, connections := ["B"], pendingIncoming := [],
          pendingOutgoing := [], pendingResponses := [], hasSetRemoteOffer := false,
          candidates := [] } "cand-a" "B").1) "B").1.candidates = ["cand-a"] ∧
    (Client.drainCandidates
      ((Client.handleSyncCandidate
        { id := "A", socketOpen := true, connections := ["B"], pendingIncoming := [],
          pendingOutgoing := [], pendingResponses := [], hasSetRemoteOffer := false,
          candidates := [] } "cand-a" "B").1) "B").1.candidates ≠ [] := by
  refine ⟨rfl, ?_⟩
  decide

/-- C1 (amended): candidate buffering is deduplicated by exact literal
match and the completed sentinel is never buffered (first conjunct, the
buffering rule of handleSyncCandidate); on application of the remote
description the whole buffer is fed to the engine in original arrival
order (second conjunct), with no duplicate literal replayed twice (third)
and the completed sentinel never passed to the engine (fourth); but the
buffer is NOT cleared afterwards: it still holds every buffered candidate
(fifth conjunct), only the hasSetRemoteOffer flag is set (sixth). The
nonemptiness hypothesis reflects that onCandidate drops a falsy (empty)
candidate string. -/
theorem candidate_buffering_amended (s : ClientState) (uri cand curi : String)
    (hnd : s.candidates.Nodup) (hcm : "completed" ∉ s.candidates)
    (hne : ∀ c ∈ s.candidates, c ≠ "") :
    ((Client.handleSyncCandidate s cand curi).1.candidates =
        if cand ≠ "completed" ∧ cand ∉ s.candidates
        then s.candidates ++ [cand] else s.candidates) ∧
    (Client.drainCandidates s uri).2 =
        s.candidates.map (fun c => Action.engineAddCandidate uri c) ∧
    (Client.drainCandidates s uri).2.Nodup ∧
    Action.engineAddCandidate uri "completed" ∉ (Client.drainCandidates s uri).2 ∧
    (Client.drainCandidates s uri).1.candidates = s.candidates ∧
    (Client.drainCandidates s uri).1.hasSetRemoteOffer = true := by
  have hacts : (Client.drainCandidates s uri).2 =
      s.candidates.map (fun c => Action.engineAddCandidate uri c) :=
    flatten_onCandidate s.candidates uri hne
  have hinj : Function.Injective (fun c => Action.engineAddCandidate uri c) := by
    intro a b hab
    simpa using hab
  refine ⟨?_, hacts, ?_, ?_, rfl, rfl⟩
  · rw [handleSyncCandidate_fst]
    split <;> rfl
  · rw [hacts]
    exact hnd.map hinj
  · rw [hacts]
    intro hmem
    rcases List.mem_map.mp hmem with ⟨c, hc, hEq⟩
    have hc' : c = "completed" := by simpa using hEq
    exact hcm (hc' ▸ hc)

/-- Concrete client used by the C1 witness: two buffered candidates. -/
def clientC1 : ClientState :=
  { id := "A", socketOpen := true, connections := ["B"], pendingIncoming := [],
    pendingOutgoing := [], pendingResponses := [], hasSetRemoteOffer := false,
    candidates := ["cand-a", "cand-b"] }

/-- C1 witness: with candidates cand-a and cand-b buffered, the drain feeds
both to the engine in arrival order and leaves them in the buffer. -/
theorem candidate_buffering_amended_witness :
    (Client.drainCandidates clientC1 "B").2 =
      [Action.engineAddCandidate "B" "cand-a", Action.engineAddCandidate "B" "cand-b"] ∧
    (Client.drainCandidates clientC1 "B").1.candidates = clientC1.candidates :=
  ⟨(candidate_buffering_amended clientC1 "B" "x" "B"
      (by decide) (by decide) (by decide)).2.1,
   (candidate_buffering_amended clientC1 "B" "x" "B"
      (by decide) (by decide) (by decide)).2.2.2.2.1⟩

/-! Claim C4. -/

/-- C4 counterexample: with an outgoing session already active for B (and
no connection), an inbound publisher offer for B does not fail with any
session-already-active error: it succeeds, installs a second, incoming
session for B next to the still-active outgoing one, and creates the
connection. -/
theorem inbound_proposal_ignores_active_session :
    Client.handlePublishOffer
      { id := "A", socketOpen := true, connections := [], pendingIncoming := [],
        pendingOutgoing := [("B", 0)], pendingResponses := [], hasSetRemoteOffer := false,
        candidates := [] } "B" 1 =
      .ok ({ id := "A", socketOpen := true, connections := ["B"], pendingIncoming := [("B", 1)],
             pendingOutgoing := [("B", 0)], pendingResponses := [], hasSetRemoteOffer := false,
             candidates := [] },
           [Action.dispatch "session", Action.dispatch "incoming"], true) := by
  rfl

/-- C4 (amended): a second locally initiated proposal for an active peer is
indeed rejected: createSession fails with sessionAlreadyActive whenever an
outgoing or incoming session for uri is pending (first conjunct); but an
inbound proposal is not rejected: handlePublishOffer succeeds regardless,
storing a fresh incoming session token that replaces any previous incoming
entry for uri (second and third conjuncts), and handleSessionStart does the
same (fourth conjunct), so the at-most-one-active-session invariant can be
broken by inbound proposals. -/
theorem second_proposal_amended (s : ClientState) (uri fresh : String)
    (w sessTok tok : Nat) (response : Message)
    (hself : s.id ≠ uri) (hconn : uri ∉ s.connections)
    (hactive : mapHas s.pendingOutgoing uri = true ∨ mapHas s.pendingIncoming uri = true) :
    Client.createSession s uri fresh w sessTok response = .error .sessionAlreadyActive ∧
    Client.handlePublishOffer s uri tok =
      .ok ({ s with pendingIncoming := mapSet s.pendingIncoming uri tok,
                    connections := s.connections ++ [uri] },
           [Action.dispatch "session", Action.dispatch "incoming"], true) ∧
    mapGet (mapSet s.pendingIncoming uri tok) uri = some tok ∧
    (Client.handleSessionStart s uri tok).1.pendingIncoming = mapSet s.pendingIncoming uri tok := by
  refine ⟨?_, ?_, mapGet_mapSet_self _ _ _, rfl⟩
  · simp [Client.createSession, hself, hconn, hactive]
  · simp [Client.handlePublishOffer, Client.createPeerConnection, hself, hconn]

/-- Concrete client used by the C4 witness: an incoming session pending for
B. -/
def clientC4 : ClientState :=
  { id := "A", socketOpen := true, connections := [], pendingIncoming := [("B", 0)],
    pendingOutgoing := [], pendingResponses := [], hasSetRemoteOffer := false,
    candidates := [] }

/-- C4 witness: the amended theorem evaluated on a client with an incoming
session pending for B. -/
theorem second_proposal_amended_witness :
    Client.createSession clientC4 "B" "f" 0 1 { result := some "success" } =
      .error .sessionAlreadyActive ∧
    mapGet (mapSet clientC4.pendingIncoming "B" 2) "B" = some 2 :=
  ⟨(second_proposal_amended clientC4 "B" "f" 0 1 2 { result := some "success" }
      (by decide) (by decide) (Or.inr (by decide))).1,
   (second_proposal_amended clientC4 "B" "f" 0 1 2 { result := some "success" }
      (by decide) (by decide) (Or.inr (by decide))).2.2.1⟩

/-! Claim C10. -/

/-- Request message sent by IncomingSession.accept. -/
def acceptMsg (origin : String) : Message :=
  { cmd := some "session-accept", uri := some origin }

/-- Action trace produced by the send inside IncomingSession.accept. -/
def acceptActs (origin fresh : String) (w : Nat) : List Action :=
  [Action.register (Client.sendSid (acceptMsg origin) fresh) w,
   Action.transmit
     { acceptMsg origin with session_id := some (Client.sendSid (acceptMsg origin) fresh) }]

theorem accept_self_check (c : ClientState) (origin : String) (hself : c.id ≠ origin) :
    ¬(jsTruthy (Message.uri { cmd := some "session-accept", uri := some origin }) = true ∧
      Message.uri { cmd := some "session-accept", uri := some origin } = some c.id) := by
  rintro ⟨-, h2⟩
  exact hself (Option.some.inj h2).symm

theorem accept_ok_shape (st : SessionState) (c : ClientState) (origin fresh : String)
    (w : Nat) (r : Message)
    (hst : st.settled = false) (hopen : c.socketOpen = true)
    (hself : c.id ≠ origin) (hr : r.result ≠ some "failed")
    (hconn : origin ∉ c.connections) :
    ∃ pr, IncomingSession.accept st c origin fresh w r =
      ⟨st, { c with pendingResponses := pr, connections := c.connections ++ [origin] },
       acceptActs origin fresh w, none⟩ := by
  have hsend := send_ok c { cmd := some "session-accept", uri := some origin } fresh w hopen
    (accept_self_check c origin hself)
  obtain ⟨pr, hpr⟩ := resolvePending_fst_shape
    { c with pendingResponses := (mapSet c.pendingResponses
        (Client.sendSid { cmd := some "session-accept", uri := some origin } fresh) w) } r
  refine ⟨pr, ?_⟩
  simp [IncomingSession.accept, hst, hsend, hpr, hr, Client.createPeerConnection,
    hself, hconn, acceptActs, acceptMsg]

theorem accept_dup_shape (st : SessionState) (c : ClientState) (origin fresh : String)
    (w : Nat) (r : Message)
    (hst : st.settled = false) (hopen : c.socketOpen = true)
    (hself : c.id ≠ origin) (hr : r.result ≠ some "failed")
    (hconn : origin ∈ c.connections) :
    ∃ pr, IncomingSession.accept st c origin fresh w r =
      ⟨st, { c with pendingResponses := pr },
       acceptActs origin fresh w, some ClientError.alreadyConnected⟩ := by
  have hsend := send_ok c { cmd := some "session-accept", uri := some origin } fresh w hopen
    (accept_self_check c origin hself)
  obtain ⟨pr, hpr⟩ := resolvePending_fst_shape
    { c with pendingResponses := (mapSet c.pendingResponses
        (Client.sendSid { cmd := some "session-accept", uri := some origin } fresh) w) } r
  refine ⟨pr, ?_⟩
  simp [IncomingSession.accept, hst, hsend, hpr, hr, Client.createPeerConnection,
    hself, hconn, acceptActs, acceptMsg]

/-- C10: when accept on an incoming session succeeds (the response is not
failed and the connection can be created), the settled flag stays false and
nothing is dispatched on the session (the event trace is unchanged); the
peer connection is registered; and a second accept on the same session
passes the settled guard, re-sends, and fails with alreadyConnected because
the connection already exists, not with alreadySettled. -/
theorem accept_success_not_settling (st : SessionState) (c : ClientState)
    (origin fresh fresh2 : String) (w w2 : Nat) (r1 r2 : Message)
    (hst : st.settled = false) (hopen : c.socketOpen = true)
    (hself : c.id ≠ origin) (hconn : origin ∉ c.connections)
    (hr1 : r1.result ≠ some "failed") (hr2 : r2.result ≠ some "failed") :
    (IncomingSession.accept st c origin fresh w r1).error = none ∧
    (IncomingSession.accept st c origin fresh w r1).sess = st ∧
    (IncomingSession.accept st c origin fresh w r1).sess.settled = false ∧
    (IncomingSession.accept st c origin fresh w r1).sess.events = st.events ∧
    origin ∈ (IncomingSession.accept st c origin fresh w r1).client.connections ∧
    (IncomingSession.accept (IncomingSession.accept st c origin fresh w r1).sess
        (IncomingSession.accept st c origin fresh w r1).client
        origin fresh2 w2 r2).error = some ClientError.alreadyConnected := by
  obtain ⟨pr1, h1⟩ := accept_ok_shape st c origin fresh w r1 hst hopen hself hr1 hconn
  have hmem3 : origin ∈
      ({ c with pendingResponses := pr1, connections := c.connections ++ [origin] }
        : ClientState).connections := by
    simp
  obtain ⟨pr2, h2⟩ := accept_dup_shape st
    { c with pendingResponses := pr1, connections := c.connections ++ [origin] }
    origin fresh2 w2 r2 hst hopen hself hr2 hmem3
  refine ⟨?_, ?_, ?_, ?_, ?_, ?_⟩
  · rw [h1]
  · rw [h1]
  · rw [h1]
    exact hst
  · rw [h1]
  · rw [h1]
    simp
  · rw [h1]
    show (IncomingSession.accept st
      { c with pendingResponses := pr1, connections := c.connections ++ [origin] }
      origin fresh2 w2 r2).error = some ClientError.alreadyConnected
    rw [h2]

/-- C10 witness: the theorem evaluated on a fresh session toward peer B
with successful responses. -/
theorem accept_success_not_settling_witness :
    (IncomingSession.accept SessionState.init
      { id := "A", socketOpen := true, connections := [], pendingIncoming := [],
        pendingOutgoing := [], pendingResponses := [], hasSetRemoteOffer := false,
        candidates := [] } "B" "f1" 0 { result := some "success" }).error = none ∧
    (IncomingSession.accept SessionState.init
      { id := "A", socketOpen := true, connections := [], pendingIncoming := [],
        pendingOutgoing := [], pendingResponses := [], hasSetRemoteOffer := false,
        candidates := [] } "B" "f1" 0 { result := some "success" }).sess = SessionState.init ∧
    (IncomingSession.accept SessionState.init
      { id := "A", socketOpen := true, connections := [], pendingIncoming := [],
        pendingOutgoing := [], pendingResponses := [], hasSetRemoteOffer := false,
        candidates := [] } "B" "f1" 0 { result := some "success" }).sess.settled = false ∧
    (IncomingSession.accept SessionState.init
      { id := "A", socketOpen := true, connections := [], pendingIncoming := [],
        pendingOutgoing := [], pendingResponses := [], hasSetRemoteOffer := false,
        candidates := [] } "B" "f1" 0 { result := some "success" }).sess.events
      = SessionState.init.events ∧
    "B" ∈ (IncomingSession.accept SessionState.init
      { id := "A", socketOpen := true, connections := [], pendingIncoming := [],
        pendingOutgoing := [], pendingResponses := [], hasSetRemoteOffer := false,
        candidates := [] } "B" "f1" 0 { result := some "success" }).client.connections ∧
    (IncomingSession.accept
      (IncomingSession.accept SessionState.init
        { id := "A", socketOpen := true, connections := [], pendingIncoming := [],
          pendingOutgoing := [], pendingResponses := [], hasSetRemoteOffer := false,
          candidates := [] } "B" "f1" 0 { result := some "success" }).sess
      (IncomingSession.accept SessionState.init
        { id := "A", socketOpen := true, connections := [], pendingIncoming := [],
          pendingOutgoing := [], pendingResponses := [], hasSetRemoteOffer := false,
          candidates := [] } "B" "f1" 0 { result := some "success" }).client
      "B" "f2" 1 { result := some "success" }).error = some ClientError.alreadyConnected :=
  accept_success_not_settling SessionState.init
    { id := "A", socketOpen := true, connections := [], pendingIncoming := [],
      pendingOutgoing := [], pendingResponses := [], hasSetRemoteOffer := false,
      candidates := [] } "B" "f1" "f2" 0 1
    { result := some "success" } { result := some "success" }
    (by decide) (by decide) (by decide) (by decide) (by decide) (by decide)

end TitanRTC
